import Mathlib

/-!
Verification development for the grandjury client library
(`src/grandjury/api_client.py`).

The embedding models the pure-Python environment in which every optional
dependency probed at import time (`pandas`, `polars`, `pyarrow`, `msgspec`)
is absent, i.e. `HAS_PANDAS = HAS_POLARS = HAS_PYARROW = HAS_MSGSPEC = False`.
In that environment the library runs its own plain-text CSV parser and the
`requests` POST path; the optional-library branches call code outside this
repository and are not modelled.  HTTP itself is external: the dispatcher is
modelled as a function of the received response.
-/

namespace GJ

/-- Scalar values as they appear in a Record after coercion: Python
`None`, `bool`, `int`, `float` (modelled as a rational; the claims under
study only depend on parse success and on decimal values, not on binary
rounding) and `str`. -/
inductive PyVal where
  | none
  | bool (b : Bool)
  | int (n : Int)
  | float (q : Rat)
  | str (s : String)
deriving DecidableEq

/-- A runtime Python object as it can occur inside a list handed to
`_parse_input`: either a bare scalar or a dict (a Record).  Python's dicts
preserve insertion order, so a Record is an ordered association list. -/
inductive PyObj where
  | scalar (v : PyVal)
  | dict (d : List (String × PyVal))
deriving DecidableEq

/-- Error kinds raised by the modelled code paths. -/
inductive PyError where
  | valueError (msg : String)
  | importError (msg : String)
  | attributeError
deriving DecidableEq

/-- Decidable equality of `Except` results, so that concrete runs of the
fallible operations can be checked by `decide`. -/
instance {ε α : Type} [DecidableEq ε] [DecidableEq α] : DecidableEq (Except ε α) :=
  fun x y =>
    match x, y with
    | Except.ok a, Except.ok b =>
      if h : a = b then Decidable.isTrue (by rw [h])
      else Decidable.isFalse (by intro he; cases he; exact h rfl)
    | Except.ok _, Except.error _ => Decidable.isFalse (by intro he; cases he)
    | Except.error _, Except.ok _ => Decidable.isFalse (by intro he; cases he)
    | Except.error e, Except.error f =>
      if h : e = f then Decidable.isTrue (by rw [h])
      else Decidable.isFalse (by intro he; cases he; exact h rfl)

/-! ### Character/string helpers

The Python string primitives used by the source (`str.lower`, `str.strip`
done implicitly by `int`/`float`, `in`, `rstrip`, `lstrip`, `endswith`,
splitting) are modelled on `List Char`.  `lower` is modelled on ASCII,
which covers every literal the source compares against. -/

/-- ASCII model of Python `str.lower` on one character. -/
def lowerChar (c : Char) : Char :=
  if 'A' ≤ c ∧ c ≤ 'Z' then Char.ofNat (c.toNat + 32) else c

/-- ASCII model of Python `str.lower`. -/
def lowerString (s : String) : String :=
  String.mk (s.data.map lowerChar)

/-- Whitespace stripped by Python `int(...)` / `float(...)` around a
numeric literal (ASCII whitespace). -/
def isSpace (c : Char) : Bool :=
  c = ' ' ∨ c = '\t' ∨ c = '\n' ∨ c = '\r' ∨ c = '\x0b' ∨ c = '\x0c'

/-- Model of Python `str.strip()` as applied by `int(...)`/`float(...)`. -/
def pyStrip (s : String) : String :=
  String.mk (((s.data.dropWhile isSpace).reverse.dropWhile isSpace).reverse)

/-- Python `s.rstrip(c)` for one character. -/
def rstripChar (c : Char) (s : String) : String :=
  String.mk ((s.data.reverse.dropWhile (fun x => x = c)).reverse)

/-- Python `s.lstrip(c)` for one character. -/
def lstripChar (c : Char) (s : String) : String :=
  String.mk (s.data.dropWhile (fun x => x = c))

/-- Python `s.endswith(suffix)`: dropping all but the last
`suffix.length` characters leaves exactly the suffix. -/
def strEndsWith (s suffix : String) : Bool :=
  decide (s.data.drop (s.data.length - suffix.data.length) = suffix.data)

/-- Split a character list at every occurrence of `sep` (model of
Python `str.split(sep)` for a one-character separator, as the `csv`
reader does for unquoted fields). -/
def splitOnChar (sep : Char) : List Char → List (List Char)
  | [] => [[]]
  | c :: cs =>
    match splitOnChar sep cs with
    | [] => if c = sep then [[], []] else [[c]]
    | h :: t => if c = sep then [] :: h :: t else (c :: h) :: t

/-- Decimal digit value, `'0'`..`'9'` only. -/
def digitVal (c : Char) : Option Nat :=
  if '0' ≤ c ∧ c ≤ '9' then Option.some (c.toNat - 48) else Option.none

/-- Read a nonempty all-digit character list as a natural number. -/
def digitsToNatAux : Nat → List Char → Option Nat
  | acc, [] => Option.some acc
  | acc, c :: cs =>
    match digitVal c with
    | Option.some d => digitsToNatAux (acc * 10 + d) cs
    | Option.none => Option.none

/-- `digitsToNat l` is `some` exactly when `l` is a nonempty string of
ASCII digits. -/
def digitsToNat : List Char → Option Nat
  | [] => Option.none
  | c :: cs => digitsToNatAux 0 (c :: cs)

/-- Model of Python `int(v)` on strings: optional surrounding
whitespace, an optional single sign, then a nonempty digit run.
(Underscore separators and non-ASCII digits, which CPython also accepts,
are outside the modelled fragment; no claim under study exercises
them.) -/
def pyInt (v : String) : Option Int :=
  let s := (pyStrip v).data
  let sg : Int × List Char :=
    match s with
    | '-' :: rest => (-1, rest)
    | '+' :: rest => (1, rest)
    | _ => (1, s)
  (digitsToNat sg.2).map (fun n => sg.1 * (n : Int))

/-- Is `c` an ASCII digit? -/
def isDigitChar (c : Char) : Bool :=
  decide ('0' ≤ c ∧ c ≤ '9')

/-- Mantissa of a Python float literal: `digits`, `digits.digits`,
`digits.` or `.digits` (at least one digit overall).  The result
`(n, k)` denotes the decimal value `n / 10 ^ k`. -/
def pyMantissa (m : List Char) : Option (Nat × Nat) :=
  match splitOnChar '.' m with
  | [i] => (digitsToNat i).map (fun n => (n, 0))
  | [i, f] =>
    if i.isEmpty ∧ f.isEmpty then Option.none
    else if i.all isDigitChar ∧ f.all isDigitChar then
      Option.some ((digitsToNat i).getD 0 * 10 ^ f.length + (digitsToNat f).getD 0,
        f.length)
    else Option.none
  | _ => Option.none

/-- The rational `sg * n / 10 ^ k * 10 ^ ex`, assembled with integer
arithmetic and one `Rat.divInt` so that the value is computable by
kernel reduction. -/
def decimalToRat (sg : Int) (n k : Nat) (ex : Int) : Rat :=
  let e : Int := ex - (k : Int)
  if 0 ≤ e then Rat.divInt (sg * (n : Int) * (10 : Int) ^ e.toNat) 1
  else Rat.divInt (sg * (n : Int)) ((10 : Int) ^ (-e).toNat)

/-- Exponent part of a Python float literal: optional sign then digits. -/
def pyExp (e : List Char) : Option Int :=
  match e with
  | '-' :: rest => (digitsToNat rest).map (fun n => -(n : Int))
  | '+' :: rest => (digitsToNat rest).map (fun n => (n : Int))
  | _ => (digitsToNat e).map (fun n => (n : Int))

/-- Model of Python `float(v)` on finite decimal literals: optional
whitespace and sign, mantissa, optional `e`/`E` exponent.  The special
forms `inf`/`nan` contain no `'.'` and therefore never reach the float
branch of the CSV coercion; underscore separators are outside the
modelled fragment. -/
def pyFloat (v : String) : Option Rat :=
  let s := (pyStrip v).data.map lowerChar
  let sg : Int × List Char :=
    match s with
    | '-' :: rest => (-1, rest)
    | '+' :: rest => (1, rest)
    | _ => (1, s)
  match splitOnChar 'e' sg.2 with
  | [m] => (pyMantissa m).map (fun p => decimalToRat sg.1 p.1 p.2 0)
  | [m, e] =>
    match pyMantissa m, pyExp e with
    | Option.some p, Option.some ex => Option.some (decimalToRat sg.1 p.1 p.2 ex)
    | _, _ => Option.none
  | _ => Option.none

/-! ### The plain-text CSV parser (`GrandJuryClient._parse_csv`, fallback
branch, `api_client.py` lines 100-123) -/

/-- Per-cell coercion performed by the fallback CSV parser
(`api_client.py` lines 108-121): case-insensitive `true`/`false` become
booleans, case-insensitive `none` and the empty string become `None`,
otherwise a float parse is attempted when the cell contains a decimal
point and an integer parse when it does not, and a failed numeric parse
keeps the cell text unchanged. -/
def coerceCell (v : String) : PyVal :=
  let lv := lowerString v
  if lv = "true" ∨ lv = "false" then PyVal.bool (decide (lv = "true"))
  else if lv = "none" ∨ v = "" then PyVal.none
  else if v.data.contains '.' then
    match pyFloat v with
    | Option.some q => PyVal.float q
    | Option.none => PyVal.str v
  else
    match pyInt v with
    | Option.some n => PyVal.int n
    | Option.none => PyVal.str v

/-- The rows of a CSV file's content: split at newlines, with the empty
chunk produced by a terminating final newline removed.  (The model covers
`\n`-terminated files without quoted fields, which is the fragment the
claims exercise; `csv.reader` quoting rules are not modelled.) -/
def csvLines (content : String) : List String :=
  let ls := (splitOnChar '\n' content.data).map String.mk
  match ls.getLast? with
  | Option.some "" => ls.dropLast
  | _ => ls

/-- One raw CSV row: a blank line is the empty row `[]` (which
`csv.DictReader` skips), otherwise the line splits at commas. -/
def csvRow (line : String) : List String :=
  if line = "" then [] else (splitOnChar ',' line.data).map String.mk

/-- Coerce one non-blank row against the header.  `csv.DictReader` zips
the field names with the row; a row of a different length puts a `None`
(`restval`) or a list (`restkey` overflow) value into the row dict, and
the coercion loop's `v.lower()` then raises `AttributeError`, so such a
row fails as a whole. -/
def processRow (fields : List String) (row : List String) :
    Except PyError (List (String × PyVal)) :=
  if fields.length = row.length then
    Except.ok ((fields.zip row).map (fun kv => (kv.1, coerceCell kv.2)))
  else
    Except.error PyError.attributeError

/-- The fallback CSV parser over the file's content: the first row is the
header, blank rows are skipped, every other row is coerced cell by cell. -/
def parseCsvContent (content : String) : Except PyError (List (List (String × PyVal))) :=
  match csvLines content with
  | [] => Except.ok []
  | header :: rest =>
    let fields := csvRow header
    ((rest.map csvRow).filter (fun r => !r.isEmpty)).mapM (processRow fields)

/-! ### Path suffix (`pathlib.Path(...).suffix`) -/

/-- Index of the last `'.'` in a character list, if any. -/
def lastDotIndex : List Char → Option Nat
  | [] => Option.none
  | c :: cs =>
    match lastDotIndex cs with
    | Option.some i => Option.some (i + 1)
    | Option.none => if c = '.' then Option.some 0 else Option.none

/-- Final path component, as `pathlib` computes it for POSIX paths
(trailing slashes are ignored). -/
def pathName (p : String) : String :=
  ((splitOnChar '/' (rstripChar '/' p).data).map String.mk).getLastD ""

/-- Model of `pathlib.Path(p).suffix`: the part of the final component
from its last dot, provided that dot is neither the leading character
nor the last one. -/
def pathSuffix (p : String) : String :=
  let n := (pathName p).data
  match lastDotIndex n with
  | Option.none => ""
  | Option.some i =>
    if 0 < i ∧ i + 1 < n.length then String.mk (n.drop i) else ""

/-! ### Input normalization (`GrandJuryClient._parse_input`,
`api_client.py` lines 63-93)

With every optional dataframe library absent, the live branches are:
file path (by suffix), list (returned unchanged), dict (wrapped), and
the trailing `raise ValueError` for anything else.  A file-path input is
modelled together with the content that reading the (existing) file
yields. -/

/-- The runtime shapes `_parse_input` can receive in the modelled
environment. -/
inductive NormInput where
  | path (p : String) (content : String)
  | pyList (l : List PyObj)
  | pyDict (d : List (String × PyVal))
  | unsupported (tyname : String)
deriving DecidableEq

/-- Model of `_parse_input`: dispatch on the runtime shape of the input
and return the list of parsed objects or raise. -/
def parseInput : NormInput → Except PyError (List PyObj)
  | NormInput.path p content =>
    if lowerString (pathSuffix p) = ".csv" then
      (parseCsvContent content).map (List.map PyObj.dict)
    else if lowerString (pathSuffix p) = ".parquet" ∨ lowerString (pathSuffix p) = ".pq" then
      Except.error (PyError.importError
        "Either pandas or pyarrow is required to read Parquet files")
    else
      Except.error (PyError.valueError ("Unsupported file format: " ++ pathSuffix p))
  | NormInput.pyList l => Except.ok l
  | NormInput.pyDict d => Except.ok [PyObj.dict d]
  | NormInput.unsupported tyname =>
    Except.error (PyError.valueError ("Unsupported data type: " ++ tyname))

/-! ### Client configuration (`GrandJuryClient.__init__`,
`api_client.py` lines 32-44) -/

/-- The default base URL (`API_BASE_URL`, line 30). -/
def API_BASE_URL : String := "https://grandjury-server.onrender.com/api/v1"

/-- The client's configuration.  The constructor is the only place that
assigns `api_key` and `base_url`; every method below reads them only, so
the configuration is immutable after construction. -/
structure GrandJuryClient where
  api_key : Option String
  base_url : String
deriving DecidableEq

/-- Model of `GrandJuryClient.__init__`: strip trailing slashes from the
given base URL and append `/api/v1` when it is not already the suffix. -/
def mkClient (api_key : Option String) (base_url : String) : GrandJuryClient :=
  let b := rstripChar '/' base_url
  { api_key := api_key
    base_url := if strEndsWith b "/api/v1" then b else b ++ "/api/v1" }

/-- Model of `GrandJuryClient._get_headers`. -/
def GrandJuryClient.get_headers (c : GrandJuryClient) : List (String × String) :=
  match c.api_key with
  | Option.some k =>
    [("Content-Type", "application/json"), ("Authorization", "Bearer " ++ k)]
  | Option.none => [("Content-Type", "application/json")]

/-- URL built by `_make_request` (line 48). -/
def requestUrl (c : GrandJuryClient) (endpoint : String) : String :=
  c.base_url ++ "/" ++ lstripChar '/' endpoint

/-! ### Response handling (`GrandJuryClient._make_request`,
`api_client.py` lines 58-61)

The HTTP exchange itself is external; the dispatcher's observable
behaviour is a function of the response it receives.  `jsonBody` models
the value `response.json()` decodes from the body text. -/

/-- A received HTTP response. -/
structure HttpResponse where
  status_code : Nat
  text : String
  jsonBody : PyObj
deriving DecidableEq

/-- Model of the response handling in `_make_request`: a 200 response
returns the JSON-decoded body, anything else raises
`Exception(f"API Error ({status}): {text}")`. -/
def make_request (resp : HttpResponse) : Except String PyObj :=
  if resp.status_code = 200 then Except.ok resp.jsonBody
  else Except.error ("API Error (" ++ Nat.repr resp.status_code ++ "): " ++ resp.text)

/-! ### Timestamps (`datetime.now() - timedelta(hours=1)`, `.isoformat()`)

The current time is modelled as seconds since the Unix epoch (naive, at
second granularity; `datetime.isoformat` additionally prints running
microseconds, which the claims do not depend on).  `timedelta(hours=1)`
is 3600 seconds. -/

/-- Proleptic-Gregorian civil date of a day count from 1970-01-01
(standard era-based conversion; divisions act on non-negative values). -/
def civilFromDays (z0 : Int) : Int × Int × Int :=
  let z := z0 + 719468
  let era : Int := (if 0 ≤ z then z else z - 146096) / 146097
  let doe : Int := z - era * 146097
  let yoe : Int := (doe - doe / 1460 + doe / 36524 - doe / 146096) / 365
  let y : Int := yoe + era * 400
  let doy : Int := doe - (365 * yoe + yoe / 4 - yoe / 100)
  let mp : Int := (5 * doy + 2) / 153
  let d : Int := doy - (153 * mp + 2) / 5 + 1
  let m : Int := if mp < 10 then mp + 3 else mp - 9
  (if m ≤ 2 then y + 1 else y, m, d)

/-- Two-digit zero-padded decimal. -/
def pad2 (n : Int) : String :=
  if n < 10 then "0" ++ Int.repr n else Int.repr n

/-- Four-digit zero-padded decimal (year field). -/
def pad4 (n : Int) : String :=
  if n < 10 then "000" ++ Int.repr n
  else if n < 100 then "00" ++ Int.repr n
  else if n < 1000 then "0" ++ Int.repr n
  else Int.repr n

/-- ISO-8601 text of an epoch-second timestamp, as
`datetime.isoformat()` prints it (`YYYY-MM-DDTHH:MM:SS`). -/
def isoformat (t : Int) : String :=
  let days := Int.fdiv t 86400
  let secs := Int.fmod t 86400
  match civilFromDays days with
  | (y, m, d) =>
    pad4 y ++ "-" ++ pad2 m ++ "-" ++ pad2 d ++ "T"
      ++ pad2 (secs / 3600) ++ ":" ++ pad2 (secs / 60 % 60) ++ ":" ++ pad2 (secs % 60)

/-! ### Public API methods (`api_client.py` lines 168-238)

Each method builds a payload dict and hands it to `_make_request` with a
fixed endpoint.  The embedding returns the client together with the
endpoint and payload it dispatches; the returned client records that the
method body contains no assignment to `self`.  Python floats in payload
values are modelled as `Rat`. -/

/-- A JSON-serializable payload value as the methods construct them. -/
inductive JVal where
  | num (q : Rat)
  | int (n : Int)
  | bool (b : Bool)
  | str (s : String)
  | numList (l : List Rat)
  | intList (l : List Int)
  | records (l : List PyObj)
deriving DecidableEq

/-- A payload: a dict in insertion order, as Python builds it. -/
abbrev Payload : Type := List (String × JVal)

/-- Model of the method `GrandJuryClient.evaluate_model` (lines
168-186).  `now` is the current time in epoch seconds; `Option.none`
stands for an omitted (`None`) argument. -/
def GrandJuryClient.evaluate_model (c : GrandJuryClient) (now : Int)
    (previous_score : Rat) (previous_timestamp : Option String)
    (votes reputations : Option (List Rat)) :
    GrandJuryClient × String × Payload :=
  let ts :=
    match previous_timestamp with
    | Option.some t => t
    | Option.none => isoformat (now - 3600)
  (c, "evaluate",
    [("previous_score", JVal.num previous_score),
     ("previous_timestamp", JVal.str ts),
     ("votes", JVal.numList (votes.getD [])),
     ("reputations", JVal.numList (reputations.getD []))])

/-- Model of `GrandJuryClient.vote_histogram` (lines 188-196). -/
def GrandJuryClient.vote_histogram (c : GrandJuryClient) (data : NormInput)
    (duration_minutes : Int) (gross : Bool) :
    Except PyError (GrandJuryClient × String × Payload) :=
  (parseInput data).map (fun pd =>
    (c, "verdict/histogram",
      [("data", JVal.records pd),
       ("duration_minutes", JVal.int duration_minutes),
       ("gross", JVal.bool gross)]))

/-- Model of `GrandJuryClient.vote_completeness` (lines 198-209). -/
def GrandJuryClient.vote_completeness (c : GrandJuryClient) (data : NormInput)
    (voter_list : List Int) (inference_ids : Option (List Int)) (gross : Bool) :
    Except PyError (GrandJuryClient × String × Payload) :=
  (parseInput data).map (fun pd =>
    (c, "verdict/completeness",
      [("data", JVal.records pd),
       ("voter_list", JVal.intList voter_list),
       ("gross", JVal.bool gross)]
      ++ (match inference_ids with
          | Option.some ids => [("inference_ids", JVal.intList ids)]
          | Option.none => [])))

/-- Model of `GrandJuryClient.population_confidence` (lines 211-220). -/
def GrandJuryClient.population_confidence (c : GrandJuryClient) (data : NormInput)
    (voter_list : List Int) (inference_ids : Option (List Int)) :
    Except PyError (GrandJuryClient × String × Payload) :=
  (parseInput data).map (fun pd =>
    (c, "verdict/population-confidence",
      [("data", JVal.records pd),
       ("voter_list", JVal.intList voter_list)]
      ++ (match inference_ids with
          | Option.some ids => [("inference_ids", JVal.intList ids)]
          | Option.none => [])))

/-- Model of `GrandJuryClient.majority_good_votes` (lines 222-230);
`good_vote` is `Union[bool, str]`. -/
def GrandJuryClient.majority_good_votes (c : GrandJuryClient) (data : NormInput)
    (good_vote : Sum Bool String) (threshold : Rat) :
    Except PyError (GrandJuryClient × String × Payload) :=
  (parseInput data).map (fun pd =>
    (c, "verdict/majority-good",
      [("data", JVal.records pd),
       ("good_vote", match good_vote with
         | Sum.inl b => JVal.bool b
         | Sum.inr s => JVal.str s),
       ("threshold", JVal.num threshold)]))

/-- Model of `GrandJuryClient.votes_distribution` (lines 232-238). -/
def GrandJuryClient.votes_distribution (c : GrandJuryClient) (data : NormInput)
    (inference_ids : Option (List Int)) :
    Except PyError (GrandJuryClient × String × Payload) :=
  (parseInput data).map (fun pd =>
    (c, "verdict/votes-distribution",
      [("data", JVal.records pd)]
      ++ (match inference_ids with
          | Option.some ids => [("inference_ids", JVal.intList ids)]
          | Option.none => [])))

/-! ### The legacy free function `evaluate_model` (lines 241-253)

The modelled call shape is the documented one: both `predictions` and
`references` are lists, so the `isinstance` branch that builds binary
agreement votes runs.  Python `==` on same-typed scalars is modelled by
equality of `PyVal`. -/

/-- Model of the backward-compatibility function `evaluate_model`. -/
def evaluate_model (predictions references : List PyVal) (api_key : Option String)
    (now : Int) : GrandJuryClient × String × Payload :=
  let client := mkClient api_key API_BASE_URL
  let votes := (predictions.zip references).map
    (fun pr => if pr.1 = pr.2 then (1 : Rat) else 0)
  let reputations := List.replicate votes.length (1 : Rat)
  client.evaluate_model now 0 Option.none (Option.some votes) (Option.some reputations)

/-- Is this object a Record (a mapping), as opposed to a bare scalar? -/
def isRecordObj : PyObj → Bool
  | PyObj.dict _ => true
  | PyObj.scalar _ => false

/-! ## Helper lemmas -/

theorem string_data_append (a b : String) : (a ++ b).data = a.data ++ b.data := by
  cases a; cases b; rfl

theorem string_append_assoc (a b c : String) : a ++ b ++ c = a ++ (b ++ c) := by
  cases a; cases b; cases c
  exact congrArg String.mk (List.append_assoc _ _ _)

theorem string_append_empty (a : String) : a ++ "" = a := by
  cases a
  exact congrArg String.mk (List.append_nil _)

theorem strEndsWith_append (a s : String) : strEndsWith (a ++ s) s = true := by
  unfold strEndsWith
  rw [string_data_append, List.length_append, Nat.add_sub_cancel, List.drop_left]
  simp

theorem except_map_ok_eq {ε α β : Type} (f : α → β) (x : Except ε α) (b : β)
    (h : x.map f = Except.ok b) : ∃ a, x = Except.ok a ∧ b = f a := by
  cases x with
  | error e => exact Except.noConfusion h
  | ok a =>
    refine ⟨a, rfl, ?_⟩
    injection h with h
    exact h.symm

theorem zip_map_agree (p r : List PyVal) :
    (p.zip r).map (fun pr => if pr.1 = pr.2 then (1 : Rat) else 0)
      = List.zipWith (fun a b => if a = b then (1 : Rat) else 0) p r := by
  induction p generalizing r with
  | nil => cases r <;> rfl
  | cons a as ih =>
    cases r with
    | nil => rfl
    | cons b bs => simp [List.zip_cons_cons, ih]

/-! ## Claims -/

/-- C1: a dispatch receiving a non-200 response raises an error whose
message carries the decimal status code and the response body text
verbatim as substrings, while a 200 response returns the JSON-decoded
body. -/
theorem dispatch_status_behaviour (resp : HttpResponse) :
    (resp.status_code = 200 → make_request resp = Except.ok resp.jsonBody)
  ∧ (resp.status_code ≠ 200 →
      ∃ msg, make_request resp = Except.error msg
        ∧ (∃ u w, msg = u ++ Nat.repr resp.status_code ++ w)
        ∧ (∃ u w, msg = u ++ resp.text ++ w)) := by
  constructor
  · intro h
    unfold make_request
    rw [if_pos h]
  · intro h
    refine ⟨"API Error (" ++ Nat.repr resp.status_code ++ "): " ++ resp.text, ?_, ?_, ?_⟩
    · unfold make_request
      rw [if_neg h]
    · exact ⟨"API Error (", "): " ++ resp.text, string_append_assoc _ "): " resp.text⟩
    · exact ⟨"API Error (" ++ Nat.repr resp.status_code ++ "): ", "",
        (string_append_empty _).symm⟩

/-- Witness for C1 at status 500 with body "server error", and at
status 200 with a decoded body. -/
theorem dispatch_status_behaviour_witness :
    (500 : Nat) ≠ 200
  ∧ (∃ msg,
      make_request { status_code := 500, text := "server error",
                     jsonBody := PyObj.scalar PyVal.none } = Except.error msg
        ∧ (∃ u w, msg = u ++ Nat.repr 500 ++ w)
        ∧ (∃ u w, msg = u ++ "server error" ++ w))
  ∧ make_request { status_code := 200, text := "",
                   jsonBody := PyObj.dict [("score", PyVal.float (Rat.divInt 9 10))] }
      = Except.ok (PyObj.dict [("score", PyVal.float (Rat.divInt 9 10))]) :=
  ⟨by decide,
   (dispatch_status_behaviour _).2 (by decide),
   (dispatch_status_behaviour _).1 rfl⟩

/-- C2: the CSV cell coercion follows the priority order
booleans, null, then integer parse (no decimal point in the cell) or
floating-point parse (decimal point present), keeping the text on a
failed numeric parse. -/
theorem csv_cell_coercion (v : String) :
    (lowerString v = "true" → coerceCell v = PyVal.bool true)
  ∧ (lowerString v = "false" → coerceCell v = PyVal.bool false)
  ∧ ((lowerString v = "none" ∨ v = "") → lowerString v ≠ "true" → lowerString v ≠ "false" →
      coerceCell v = PyVal.none)
  ∧ (lowerString v ≠ "true" → lowerString v ≠ "false" → lowerString v ≠ "none" → v ≠ "" →
      v.data.contains '.' = false →
      coerceCell v = (match pyInt v with
        | Option.some n => PyVal.int n
        | Option.none => PyVal.str v))
  ∧ (lowerString v ≠ "true" → lowerString v ≠ "false" → lowerString v ≠ "none" → v ≠ "" →
      v.data.contains '.' = true →
      coerceCell v = (match pyFloat v with
        | Option.some q => PyVal.float q
        | Option.none => PyVal.str v)) := by
  unfold coerceCell
  refine ⟨?_, ?_, ?_, ?_, ?_⟩
  · intro h
    rw [if_pos (Or.inl h)]
    simp [h]
  · intro h
    rw [if_pos (Or.inr h)]
    simp [h]
  · intro hn ht hf
    rw [if_neg (fun hor => hor.elim ht hf), if_pos hn]
  · intro ht hf hn he hdot
    rw [if_neg (fun hor => hor.elim ht hf), if_neg (fun hor => hor.elim hn he)]
    rw [hdot]
    simp
  · intro ht hf hn he hdot
    rw [if_neg (fun hor => hor.elim ht hf), if_neg (fun hor => hor.elim hn he)]
    rw [hdot]
    simp

/-- Witness for C2 on one cell per branch: a boolean, a null, an
integer, a decimal, and a failed numeric parse kept as text. -/
theorem csv_cell_coercion_witness :
    coerceCell "True" = PyVal.bool true
  ∧ coerceCell "None" = PyVal.none
  ∧ coerceCell "7" = PyVal.int 7
  ∧ coerceCell "2.5" = PyVal.float (Rat.divInt 5 2)
  ∧ coerceCell "1.2.3" = PyVal.str "1.2.3" :=
  ⟨(csv_cell_coercion "True").1 (by decide),
   ((csv_cell_coercion "None").2.2.1 (Or.inl (by decide)) (by decide) (by decide)),
   ((csv_cell_coercion "7").2.2.2.1 (by decide) (by decide) (by decide) (by decide)
     (by decide)).trans (by decide),
   ((csv_cell_coercion "2.5").2.2.2.2 (by decide) (by decide) (by decide) (by decide)
     (by decide)).trans (by decide),
   ((csv_cell_coercion "1.2.3").2.2.2.2 (by decide) (by decide) (by decide) (by decide)
     (by decide)).trans (by decide)⟩

/-- C3 counterexample: the list branch of `_parse_input` passes any list
through unchecked, so the one-element list holding the bare scalar `42`
is accepted without raising and is returned with its non-Record element
intact. -/
theorem normalizer_passes_scalar_list :
    parseInput (NormInput.pyList [PyObj.scalar (PyVal.int 42)])
      = Except.ok [PyObj.scalar (PyVal.int 42)]
  ∧ isRecordObj (PyObj.scalar (PyVal.int 42)) = false := by decide

/-- C3 amended: for every input accepted without raising, the result is
an ordered sequence, and its elements are all Records provided a list
input holds only mappings (as the declared parameter type `List[Dict]`
prescribes); CSV files and single mappings always produce Records. -/
theorem normalizer_yields_records (d : NormInput) (res : List PyObj)
    (hl : ∀ l, d = NormInput.pyList l → ∀ x ∈ l, isRecordObj x = true)
    (h : parseInput d = Except.ok res) :
    ∀ x ∈ res, isRecordObj x = true := by
  cases d with
  | path p content =>
    simp only [parseInput] at h
    by_cases h1 : lowerString (pathSuffix p) = ".csv"
    · rw [if_pos h1] at h
      obtain ⟨rows, _, hres⟩ := except_map_ok_eq _ _ _ h
      subst hres
      intro x hx
      obtain ⟨rec, _, hxeq⟩ := List.mem_map.mp hx
      rw [← hxeq]
      rfl
    · rw [if_neg h1] at h
      by_cases h2 : lowerString (pathSuffix p) = ".parquet" ∨ lowerString (pathSuffix p) = ".pq"
      · rw [if_pos h2] at h
        exact Except.noConfusion h
      · rw [if_neg h2] at h
        exact Except.noConfusion h
  | pyList l =>
    injection h with h
    intro x hx
    exact hl l rfl x (h ▸ hx)
  | pyDict dd =>
    injection h with h
    subst h
    intro x hx
    rw [List.mem_singleton.mp hx]
    rfl
  | unsupported t => exact Except.noConfusion h

/-- Witness for C3 (amended) on a CSV path input, where the list-input
hypothesis is vacuous. -/
theorem normalizer_yields_records_witness :
    parseInput (NormInput.path "t.csv" "a\n1\n") = Except.ok [PyObj.dict [("a", PyVal.int 1)]]
  ∧ ∀ x ∈ [PyObj.dict [("a", PyVal.int 1)]], isRecordObj x = true := by
  have heq : parseInput (NormInput.path "t.csv" "a\n1\n")
      = Except.ok [PyObj.dict [("a", PyVal.int 1)]] := by decide
  exact ⟨heq, normalizer_yields_records _ _ (fun l hl => NormInput.noConfusion hl) heq⟩

/-- C4: a list input is returned as the identical sequence, unchanged. -/
theorem normalizer_identity_on_lists (l : List PyObj)
    (hl : ∀ x ∈ l, isRecordObj x = true) :
    parseInput (NormInput.pyList l) = Except.ok l := rfl

/-- Witness for C4 on a one-element list of mappings. -/
theorem normalizer_identity_on_lists_witness :
    (∀ x ∈ [PyObj.dict [("a", PyVal.int 1)]], isRecordObj x = true)
  ∧ parseInput (NormInput.pyList [PyObj.dict [("a", PyVal.int 1)]])
      = Except.ok [PyObj.dict [("a", PyVal.int 1)]] :=
  ⟨by decide, normalizer_identity_on_lists _ (by decide)⟩

/-- C5: a single mapping is wrapped into the one-element sequence. -/
theorem normalizer_wraps_single_mapping (d : List (String × PyVal)) :
    parseInput (NormInput.pyDict d) = Except.ok [PyObj.dict d] := rfl

/-- C6: the constructed client's base URL always ends in `/api/v1`
(trailing slashes stripped, segment auto-appended when missing), and
every API method leaves the client configuration it was given
unchanged. -/
theorem client_config_normalized (key : Option String) (url : String) :
    strEndsWith (mkClient key url).base_url "/api/v1" = true
  ∧ (∀ c now ps pt vs rs, (GrandJuryClient.evaluate_model c now ps pt vs rs).1 = c)
  ∧ (∀ c d dm g r, GrandJuryClient.vote_histogram c d dm g = Except.ok r → r.1 = c)
  ∧ (∀ c d vl ids g r, GrandJuryClient.vote_completeness c d vl ids g = Except.ok r → r.1 = c)
  ∧ (∀ c d vl ids r, GrandJuryClient.population_confidence c d vl ids = Except.ok r → r.1 = c)
  ∧ (∀ c d gv th r, GrandJuryClient.majority_good_votes c d gv th = Except.ok r → r.1 = c)
  ∧ (∀ c d ids r, GrandJuryClient.votes_distribution c d ids = Except.ok r → r.1 = c) := by
  refine ⟨?_, fun c now ps pt vs rs => rfl, ?_, ?_, ?_, ?_, ?_⟩
  · show strEndsWith
      (if strEndsWith (rstripChar '/' url) "/api/v1" then rstripChar '/' url
       else rstripChar '/' url ++ "/api/v1") "/api/v1" = true
    by_cases h : strEndsWith (rstripChar '/' url) "/api/v1" = true
    · rw [if_pos h]
      exact h
    · rw [if_neg h]
      exact strEndsWith_append _ _
  · intro c d dm g r h
    unfold GrandJuryClient.vote_histogram at h
    obtain ⟨pd, _, hr⟩ := except_map_ok_eq _ _ _ h
    rw [hr]
  · intro c d vl ids g r h
    unfold GrandJuryClient.vote_completeness at h
    obtain ⟨pd, _, hr⟩ := except_map_ok_eq _ _ _ h
    rw [hr]
  · intro c d vl ids r h
    unfold GrandJuryClient.population_confidence at h
    obtain ⟨pd, _, hr⟩ := except_map_ok_eq _ _ _ h
    rw [hr]
  · intro c d gv th r h
    unfold GrandJuryClient.majority_good_votes at h
    obtain ⟨pd, _, hr⟩ := except_map_ok_eq _ _ _ h
    rw [hr]
  · intro c d ids r h
    unfold GrandJuryClient.votes_distribution at h
    obtain ⟨pd, _, hr⟩ := except_map_ok_eq _ _ _ h
    rw [hr]

/-- Witness for C6: a concrete override URL gets `/api/v1` appended, and
one concrete method call returns the client it was given. -/
theorem client_config_normalized_witness :
    strEndsWith (mkClient Option.none "http://localhost:8000").base_url "/api/v1" = true
  ∧ ((mkClient Option.none "http://localhost:8000"), "verdict/histogram",
      ([("data", JVal.records []), ("duration_minutes", JVal.int 60),
        ("gross", JVal.bool true)] : Payload)).1
      = mkClient Option.none "http://localhost:8000" :=
  ⟨(client_config_normalized Option.none "http://localhost:8000").1,
   (client_config_normalized Option.none "http://localhost:8000").2.2.1
     (mkClient Option.none "http://localhost:8000") (NormInput.pyList []) 60 true _ (by decide)⟩

/-- C7: on equal-length lists the legacy wrapper builds binary agreement
votes (1.0 where prediction equals reference, 0.0 otherwise), uniform
reputations of 1.0 of the same length, and dispatches exactly those to
the evaluate operation. -/
theorem legacy_wrapper_votes (p r : List PyVal) (key : Option String) (now : Int)
    (hp : p.length = r.length) :
    (evaluate_model p r key now).2.1 = "evaluate"
  ∧ (evaluate_model p r key now).2.2
      = [("previous_score", JVal.num 0),
         ("previous_timestamp", JVal.str (isoformat (now - 3600))),
         ("votes", JVal.numList
           (List.zipWith (fun a b => if a = b then (1 : Rat) else 0) p r)),
         ("reputations", JVal.numList (List.replicate p.length (1 : Rat)))] := by
  have hv : ((p.zip r).map (fun pr => if pr.1 = pr.2 then (1 : Rat) else 0)).length
      = p.length := by
    rw [List.length_map, List.length_zip, hp, Nat.min_self]
  constructor
  · rfl
  · show [("previous_score", JVal.num 0),
      ("previous_timestamp", JVal.str (isoformat (now - 3600))),
      ("votes", JVal.numList
        ((p.zip r).map (fun pr => if pr.1 = pr.2 then (1 : Rat) else 0))),
      ("reputations", JVal.numList (List.replicate
        ((p.zip r).map (fun pr => if pr.1 = pr.2 then (1 : Rat) else 0)).length (1 : Rat)))]
      = _
    rw [hv, zip_map_agree]

/-- Witness for C7: predictions `["a","b"]` against references
`["a","c"]` give votes `[1.0, 0.0]` and reputations `[1.0, 1.0]`. -/
theorem legacy_wrapper_votes_witness :
    [PyVal.str "a", PyVal.str "b"].length = [PyVal.str "a", PyVal.str "c"].length
  ∧ (evaluate_model [PyVal.str "a", PyVal.str "b"] [PyVal.str "a", PyVal.str "c"]
       Option.none 0).2.2
      = [("previous_score", JVal.num 0),
         ("previous_timestamp", JVal.str (isoformat (-3600))),
         ("votes", JVal.numList [1, 0]),
         ("reputations", JVal.numList [1, 1])] :=
  ⟨rfl,
   ((legacy_wrapper_votes [PyVal.str "a", PyVal.str "b"] [PyVal.str "a", PyVal.str "c"]
      Option.none 0 rfl).2).trans (by decide)⟩

/-- C8: with `votes` or `reputations` unset the dispatched payload holds
an empty sequence under that key, and with `previous_timestamp` unset it
holds the ISO-8601 text of one hour (3600 s) before the current time. -/
theorem evaluate_defaults (c : GrandJuryClient) (now : Int) (ps : Rat)
    (pt : Option String) (vs rs : Option (List Rat)) :
    (vs = Option.none →
      List.lookup "votes" (c.evaluate_model now ps pt vs rs).2.2
        = Option.some (JVal.numList []))
  ∧ (rs = Option.none →
      List.lookup "reputations" (c.evaluate_model now ps pt vs rs).2.2
        = Option.some (JVal.numList []))
  ∧ (pt = Option.none →
      List.lookup "previous_timestamp" (c.evaluate_model now ps pt vs rs).2.2
        = Option.some (JVal.str (isoformat (now - 3600)))) := by
  refine ⟨fun h => ?_, fun h => ?_, fun h => ?_⟩ <;> subst h <;> rfl

/-- Witness for C8 with all three arguments unset. -/
theorem evaluate_defaults_witness :
    List.lookup "votes"
      ((mkClient Option.none "z").evaluate_model 0 0 Option.none Option.none Option.none).2.2
      = Option.some (JVal.numList [])
  ∧ List.lookup "reputations"
      ((mkClient Option.none "z").evaluate_model 0 0 Option.none Option.none Option.none).2.2
      = Option.some (JVal.numList [])
  ∧ List.lookup "previous_timestamp"
      ((mkClient Option.none "z").evaluate_model 0 0 Option.none Option.none Option.none).2.2
      = Option.some (JVal.str (isoformat (0 - 3600))) :=
  ⟨(evaluate_defaults (mkClient Option.none "z") 0 0 Option.none Option.none Option.none).1 rfl,
   (evaluate_defaults (mkClient Option.none "z") 0 0 Option.none Option.none Option.none).2.1 rfl,
   (evaluate_defaults (mkClient Option.none "z") 0 0 Option.none Option.none Option.none).2.2 rfl⟩

/-- C9 counterexample: on the CSV text `"x\nNone\n\n"` the normalizer
yields exactly one record (the `"None"` row); it does not yield a record
for the blank row as well, because `csv.DictReader` skips blank rows. -/
theorem csv_blank_row_skipped :
    parseInput (NormInput.path "votes.csv" "x\nNone\n\n")
      = Except.ok [PyObj.dict [("x", PyVal.none)]]
  ∧ (Except.ok [PyObj.dict [("x", PyVal.none)]] : Except PyError (List PyObj))
      ≠ Except.ok [PyObj.dict [("x", PyVal.none)], PyObj.dict [("x", PyVal.none)]] := by
  decide

/-- C9 amended: for the CSV text `"x\nNone\n\n"` normalize yields the
single record mapping `"x"` to null, produced by the `"None"` row; the
empty row produces no record because the CSV reader skips blank rows. -/
theorem csv_none_row_null :
    parseInput (NormInput.path "votes.csv" "x\nNone\n\n")
      = Except.ok [PyObj.dict [("x", PyVal.none)]] := by
  decide

/-- C10: on lists of unequal length the legacy wrapper silently
truncates: the votes it passes have length `min` of the two lengths, the
reputations have that same length, and the call dispatches (builds an
evaluate request) without raising. -/
theorem legacy_wrapper_truncates (p r : List PyVal) (key : Option String) (now : Int) :
    (evaluate_model p r key now).2.1 = "evaluate"
  ∧ (evaluate_model p r key now).2.2
      = [("previous_score", JVal.num 0),
         ("previous_timestamp", JVal.str (isoformat (now - 3600))),
         ("votes", JVal.numList
           ((p.zip r).map (fun pr => if pr.1 = pr.2 then (1 : Rat) else 0))),
         ("reputations", JVal.numList
           (List.replicate (min p.length r.length) (1 : Rat)))]
  ∧ ((p.zip r).map (fun pr => if pr.1 = pr.2 then (1 : Rat) else 0)).length
      = min p.length r.length := by
  have hlen : ((p.zip r).map (fun pr => if pr.1 = pr.2 then (1 : Rat) else 0)).length
      = min p.length r.length := by
    rw [List.length_map, List.length_zip]
  refine ⟨rfl, ?_, hlen⟩
  show [("previous_score", JVal.num 0),
    ("previous_timestamp", JVal.str (isoformat (now - 3600))),
    ("votes", JVal.numList
      ((p.zip r).map (fun pr => if pr.1 = pr.2 then (1 : Rat) else 0))),
    ("reputations", JVal.numList (List.replicate
      ((p.zip r).map (fun pr => if pr.1 = pr.2 then (1 : Rat) else 0)).length (1 : Rat)))]
    = _
  rw [hlen]

end GJ
